import Mathlib

/-!
Shallow embedding of grub2 `src/commands/search.c` (the `search` command:
`search_fs`, `search_file`, `grub_cmd_search`) and proofs about it.

The external collaborators (device enumerator, device open, filesystem
probe, file open, allocator) are modelled as per-device oracles carried in
`DevInfo`.  The global `grub_errno` cell, the running match counter, the
environment writes (`grub_env_set`) and the printed output (`grub_printf`)
are threaded explicitly through `SState`.  `SState.visited` is a ghost
field recording, in order, the devices for which the per-device callback
was invoked; the C code has no such variable, it only instruments the
iteration so that "no later device is tested" claims can be stated.
-/

/-- The `grub_err_t` values this command can observe or produce:
`GRUB_ERR_NONE`, `GRUB_ERR_FILE_NOT_FOUND` (raised by both search loops),
`GRUB_ERR_UNKNOWN_DEVICE` (failed `grub_device_open`), `GRUB_ERR_UNKNOWN_FS`
(failed `grub_fs_probe`), `GRUB_ERR_OUT_OF_MEMORY` (failed `grub_realloc`),
`badFile` (failed `grub_file_open`), `GRUB_ERR_INVALID_COMMAND`, and one
constructor for an error a label/uuid accessor leaves in `grub_errno`. -/
inductive GrubErr : Type
  | none
  | fileNotFound
  | unknownDevice
  | unknownFs
  | outOfMemory
  | badFile
  | invalidCommand
  | accessFailed
deriving DecidableEq, Repr

/-- One enumerated device together with the behaviour of the external
primitives on it: whether `grub_device_open` succeeds, whether
`grub_fs_probe` recognises a filesystem, whether that filesystem exposes
a label / uuid accessor (`fs->label` / `fs->uuid` non-NULL), what each
accessor stores in `grub_errno` and in `quid` when called, whether
`grub_realloc` succeeds while this device is processed, and which paths
`grub_file_open` can open. -/
structure DevInfo : Type where
  name : String
  openOk : Bool
  hasFs : Bool
  hasLabelFn : Bool
  hasUuidFn : Bool
  labelRes : GrubErr × Option String
  uuidRes : GrubErr × Option String
  allocOk : Bool
  fileOpen : String → Bool

/-- The mutable state threaded through one `search` invocation: the match
counter (`count` in `search_fs` / `search_file`), the global `grub_errno`,
the sequence of `grub_env_set` calls, the sequence of `grub_printf`
emissions, and the ghost list of devices the callback was invoked on. -/
structure SState : Type where
  count : Nat
  errno : GrubErr
  envWrites : List (String × String)
  output : List String
  visited : List String
deriving DecidableEq, Repr

/-- The state at command entry: counter zero, `grub_errno` clear, nothing
written, nothing printed, nothing visited. -/
def initState : SState :=
  { count := 0, errno := GrubErr.none, envWrites := [], output := [], visited := [] }

/-- Reading character `i` of a NUL-terminated C string: past the end the
terminator `'\x00'` is read (as `name[0]`, `name[1]`, `name[2]` do in the
floppy checks at search.c:61-63 and search.c:127-129). -/
def cstrNth (s : String) (i : Nat) : Char := s.data.getD i (Char.ofNat 0)

/-- The floppy test as written in the source (search.c:61-63 and
search.c:127-129): `name[0] == 'f' && name[1] == 'd' && name[2] >= '0' &&
name[2] <= '9'`, with C-string out-of-bounds reads giving `'\x00'`. -/
def cFloppy (name : String) : Bool :=
  (cstrNth name 0 == 'f') && (cstrNth name 1 == 'd') &&
    (decide ('0' ≤ cstrNth name 2) && decide (cstrNth name 2 ≤ '9'))

/-- Modelled from the spec's words for §4.4 FloppyFilter, for comparison
with `cFloppy`: true iff `name` has length ≥ 3, `name[0] == 'f'`,
`name[1] == 'd'`, and `name[2]` is a decimal digit. -/
def specFloppy (name : String) : Bool :=
  decide (3 ≤ name.length) && (cstrNth name 0 == 'f') && (cstrNth name 1 == 'd') &&
    (cstrNth name 2).isDigit

/-- `grub_sprintf` restricted to `%s` directives: the format character list
is copied, each `%s` consuming the next string argument. -/
def grub_sprintf_fmt : List Char → List String → List Char
  | [], _ => []
  | [c], _ => [c]
  | c1 :: c2 :: rest, as =>
    if c1 = '%' ∧ c2 = 's' then
      match as with
      | a :: as2 => a.data ++ grub_sprintf_fmt rest as2
      | [] => grub_sprintf_fmt rest []
    else c1 :: grub_sprintf_fmt (c2 :: rest) as

/-- The composite path `search_file` builds at search.c:138:
`grub_sprintf (buf, "(%s)%s", name, key)`. -/
def mkPath (name key : String) : String :=
  String.mk (grub_sprintf_fmt "(%s)%s".data [name, key])

/-- The buffer size computed at search.c:132:
`grub_strlen (name) + 2 + grub_strlen (key) + 1`. -/
def pathBufLen (name key : String) : Nat :=
  name.length + 2 + key.length + 1

/-- The shared "Found!" block (search.c:84-92 and search.c:143-151):
increment `count`; with a variable set the device name is bound
(`grub_env_set`) and `abort` is raised, otherwise the name is printed
space-prefixed (`grub_printf (" %s", name)`). -/
def foundAction (var : Option String) (name : String) (s : SState) : SState × Bool :=
  let s1 := { s with count := s.count + 1 }
  match var with
  | some v => ({ s1 with envWrites := s1.envWrites ++ [(v, name)] }, true)
  | Option.none => ({ s1 with output := s1.output ++ [" " ++ name] }, false)

/-- `fs && QUID(fs)` of search.c:73-75: the probe succeeded and the
requested accessor (uuid when `is_uuid`, label otherwise) is non-NULL. -/
def quidAvail (isUuid : Bool) (d : DevInfo) : Bool :=
  d.hasFs && (if isUuid then d.hasUuidFn else d.hasLabelFn)

/-- What `(QUID(fs)) (dev, &quid)` at search.c:79 produces on this device:
the `grub_errno` it leaves and the `quid` string (None for a NULL quid). -/
def quidRes (isUuid : Bool) (d : DevInfo) : GrubErr × Option String :=
  if isUuid then d.uuidRes else d.labelRes

/-- Body of `search_fs`'s `iterate_device` after the floppy check
(search.c:66-103): open the device; on success probe the filesystem,
call the label/uuid accessor when available, compare `quid` with `key`
and run the found block on equality; close the device; finally clear
`grub_errno` (search.c:102) and return `abort`. -/
def searchFsBody (key : String) (var : Option String) (isUuid : Bool)
    (d : DevInfo) (s : SState) : SState × Bool :=
  let r : SState × Bool :=
    if d.openOk then
      let s1 := if d.hasFs then s else { s with errno := GrubErr.unknownFs }
      if quidAvail isUuid d then
        let s2 := { s1 with errno := (quidRes isUuid d).1 }
        match (quidRes isUuid d).2 with
        | some quid =>
          if (quidRes isUuid d).1 = GrubErr.none then
            if quid = key then foundAction var d.name s2 else (s2, false)
          else (s2, false)
        | Option.none => (s2, false)
      else (s1, false)
    else ({ s with errno := GrubErr.unknownDevice }, false)
  ({ r.1 with errno := GrubErr.none }, r.2)

/-- `search_fs`'s `iterate_device` (search.c:55-104): skip floppies when
requested, then run the body.  The ghost `visited` field records the
invocation. -/
def searchFsStep (key : String) (var : Option String) (noFloppy isUuid : Bool)
    (d : DevInfo) (s : SState) : SState × Bool :=
  let s0 := { s with visited := s.visited ++ [d.name] }
  if noFloppy && cFloppy d.name then (s0, false)
  else searchFsBody key var isUuid d s0

/-- Body of `search_file`'s `iterate_device` after the floppy check
(search.c:132-157): grow the path buffer (`grub_realloc`; on failure
`grub_errno` holds `GRUB_ERR_OUT_OF_MEMORY` and the callback returns 1 at
search.c:135 without clearing it), build `(name)key`, try to open it,
run the found block on success, close the file, clear `grub_errno`
(search.c:156) and return `abort`. -/
def searchFileBody (key : String) (var : Option String)
    (d : DevInfo) (s : SState) : SState × Bool :=
  if !d.allocOk then ({ s with errno := GrubErr.outOfMemory }, true)
  else
    let r : SState × Bool :=
      if d.fileOpen (mkPath d.name key) then foundAction var d.name s
      else ({ s with errno := GrubErr.badFile }, false)
    ({ r.1 with errno := GrubErr.none }, r.2)

/-- `search_file`'s `iterate_device` (search.c:119-158): skip floppies when
requested, then run the body. -/
def searchFileStep (key : String) (var : Option String) (noFloppy : Bool)
    (d : DevInfo) (s : SState) : SState × Bool :=
  let s0 := { s with visited := s.visited ++ [d.name] }
  if noFloppy && cFloppy d.name then (s0, false)
  else searchFileBody key var d s0

/-- `grub_device_iterate`: invoke the hook on each device in enumeration
order, stopping as soon as a hook invocation returns nonzero. -/
def grub_device_iterate (hook : DevInfo → SState → SState × Bool) :
    List DevInfo → SState → SState
  | [], s => s
  | d :: ds, s =>
    let r := hook d s
    if r.2 = true then r.1 else grub_device_iterate hook ds r.1

/-- `search_fs` (search.c:49-110): iterate, then
`if (count == 0) grub_error (GRUB_ERR_FILE_NOT_FOUND, "no such device: %s", key)`. -/
def search_fs (key : String) (var : Option String) (noFloppy isUuid : Bool)
    (devs : List DevInfo) (s : SState) : SState :=
  let s1 := grub_device_iterate (searchFsStep key var noFloppy isUuid) devs s
  if s1.count = 0 then { s1 with errno := GrubErr.fileNotFound } else s1

/-- `search_file` (search.c:112-166): iterate, then
`if (grub_errno == GRUB_ERR_NONE && count == 0)
   grub_error (GRUB_ERR_FILE_NOT_FOUND, "no such file: %s", key)`. -/
def search_file (key : String) (var : Option String) (noFloppy : Bool)
    (devs : List DevInfo) (s : SState) : SState :=
  let s1 := grub_device_iterate (searchFileStep key var noFloppy) devs s
  if s1.errno = GrubErr.none ∧ s1.count = 0 then { s1 with errno := GrubErr.fileNotFound }
  else s1

/-- The flag state `grub_cmd_search` reads from `cmd->state`
(search.c:171-187): whether each of `--file`, `--label`, `--fs-uuid`,
`--set`, `--no-floppy` was given, and `--set`'s optional argument. -/
structure ArgState : Type where
  fileSet : Bool
  labelSet : Bool
  uuidSet : Bool
  setSet : Bool
  setArg : Option String
  noFloppySet : Bool

/-- The variable name computed at search.c:177-178: with `--set` given,
its argument or `"root"`; otherwise none. -/
def argVar (st : ArgState) : Option String :=
  if st.setSet then some (st.setArg.getD "root") else Option.none

/-- `grub_cmd_search` (search.c:168-190): an empty argument list is
`GRUB_ERR_INVALID_COMMAND` (`"no argument specified"`); then label, uuid
and file modes are tried in that order; no flag set is
`GRUB_ERR_INVALID_COMMAND` (`"unspecified search type"`); the command
returns the final `grub_errno`. -/
def grub_cmd_search (st : ArgState) (args : List String) (devs : List DevInfo) :
    GrubErr × SState :=
  match args with
  | [] => (GrubErr.invalidCommand, { initState with errno := GrubErr.invalidCommand })
  | a :: _ =>
    if st.labelSet then
      let s := search_fs a (argVar st) st.noFloppySet false devs initState
      (s.errno, s)
    else if st.uuidSet then
      let s := search_fs a (argVar st) st.noFloppySet true devs initState
      (s.errno, s)
    else if st.fileSet then
      let s := search_file a (argVar st) st.noFloppySet devs initState
      (s.errno, s)
    else (GrubErr.invalidCommand, { initState with errno := GrubErr.invalidCommand })

/-- The three search modes, for stating properties uniformly. -/
inductive SMode : Type
  | file
  | label
  | uuid
deriving DecidableEq, Repr

/-- The per-device callback of the given mode. -/
def modeStep (m : SMode) (key : String) (var : Option String) (noFloppy : Bool) :
    DevInfo → SState → SState × Bool :=
  match m with
  | SMode.file => searchFileStep key var noFloppy
  | SMode.label => searchFsStep key var noFloppy false
  | SMode.uuid => searchFsStep key var noFloppy true

/-- The state after the device enumeration of the given mode, from the
command's initial state (before the final count/errno inspection). -/
def runIterate (m : SMode) (key : String) (var : Option String) (noFloppy : Bool)
    (devs : List DevInfo) : SState :=
  grub_device_iterate (modeStep m key var noFloppy) devs initState

/-- The state after the complete search call of the given mode. -/
def runSearch (m : SMode) (key : String) (var : Option String) (noFloppy : Bool)
    (devs : List DevInfo) : SState :=
  match m with
  | SMode.file => search_file key var noFloppy devs initState
  | SMode.label => search_fs key var noFloppy false devs initState
  | SMode.uuid => search_fs key var noFloppy true devs initState

/-- The attribute value the label/uuid matcher observes on a device: some
string when the device opens, the probe succeeds, the accessor exists and
it returns without error; none otherwise. -/
def fsAttr (isUuid : Bool) (d : DevInfo) : Option String :=
  if d.openOk && quidAvail isUuid d && decide ((quidRes isUuid d).1 = GrubErr.none) then
    (quidRes isUuid d).2
  else Option.none

/-- A device the label/uuid matcher counts as found: its observed
attribute equals the key. -/
def fsMatch (key : String) (isUuid : Bool) (d : DevInfo) : Bool :=
  fsAttr isUuid d == some key

/-- A device the label/uuid search actually records: not floppy-skipped
and matching. -/
def effFsMatch (key : String) (noFloppy isUuid : Bool) (d : DevInfo) : Bool :=
  !(noFloppy && cFloppy d.name) && fsMatch key isUuid d

/-- A device on which `search_file`'s callback aborts at the `grub_realloc`
failure (search.c:134-135): not floppy-skipped and allocation fails. -/
def stopA (noFloppy : Bool) (d : DevInfo) : Bool :=
  !(noFloppy && cFloppy d.name) && !d.allocOk

/-- A device the file search actually records: not floppy-skipped,
allocation succeeds, and the composite path opens. -/
def effFMatch (key : String) (noFloppy : Bool) (d : DevInfo) : Bool :=
  !(noFloppy && cFloppy d.name) && d.allocOk && d.fileOpen (mkPath d.name key)

/-- The recorded-match predicate of the given mode. -/
def effMatch (m : SMode) (key : String) (noFloppy : Bool) (d : DevInfo) : Bool :=
  match m with
  | SMode.file => effFMatch key noFloppy d
  | SMode.label => effFsMatch key noFloppy false d
  | SMode.uuid => effFsMatch key noFloppy true d

/-- A file-open oracle that opens nothing. -/
def noOpen : String → Bool := fun _ => false

/-- A device with label and uuid `"OTHER"`, everything else healthy. -/
def devOther (n : String) : DevInfo :=
  ⟨n, true, true, true, true, (GrubErr.none, some "OTHER"), (GrubErr.none, some "OTHER"),
    true, noOpen⟩

/-- The device `hd1` carrying label `"MYUSB"`. -/
def devMyUsb : DevInfo :=
  ⟨"hd1", true, true, true, true, (GrubErr.none, some "MYUSB"), (GrubErr.none, some "MYUSB"),
    true, noOpen⟩

/-- A device `hd0` whose filesystem label is the empty string. -/
def devEmptyLabel : DevInfo :=
  ⟨"hd0", true, true, true, true, (GrubErr.none, some ""), (GrubErr.none, some ""),
    true, noOpen⟩

/-- A device `hd0` on which `grub_realloc` fails. -/
def devAllocFail : DevInfo :=
  ⟨"hd0", true, true, true, true, (GrubErr.none, Option.none), (GrubErr.none, Option.none),
    false, fun _ => true⟩

/-- A device `hd1` on which every file opens. -/
def devHasFile : DevInfo :=
  ⟨"hd1", true, false, false, false, (GrubErr.none, Option.none), (GrubErr.none, Option.none),
    true, fun _ => true⟩

/-- A device `hd0` carrying the file `/boot/grub/grub.cfg`. -/
def devGrubCfg : DevInfo :=
  ⟨"hd0", true, false, false, false, (GrubErr.none, Option.none), (GrubErr.none, Option.none),
    true, fun p => p == "(hd0)/boot/grub/grub.cfg"⟩

/-- Flag state with only `--label` given. -/
def stLabelOnly : ArgState := ⟨false, true, false, false, Option.none, false⟩

/-- Flag state with none of `--file`, `--label`, `--fs-uuid` given. -/
def stNoFlags : ArgState := ⟨false, false, false, false, Option.none, false⟩

lemma searchFsBody_eq (key : String) (var : Option String) (isUuid : Bool)
    (d : DevInfo) (s : SState) :
    searchFsBody key var isUuid d s =
      if fsMatch key isUuid d then
        match var with
        | some v =>
            ({ s with count := s.count + 1, errno := GrubErr.none,
                      envWrites := s.envWrites ++ [(v, d.name)] }, true)
        | Option.none =>
            ({ s with count := s.count + 1, errno := GrubErr.none,
                      output := s.output ++ [" " ++ d.name] }, false)
      else ({ s with errno := GrubErr.none }, false) := by
  unfold searchFsBody fsMatch fsAttr foundAction
  by_cases ho : d.openOk
  · by_cases hfs : d.hasFs
    · by_cases hq : quidAvail isUuid d
      · rcases hres : (quidRes isUuid d).2 with _ | q
        · simp [ho, hfs, hq, hres]
        · by_cases he : (quidRes isUuid d).1 = GrubErr.none
          · by_cases hk : q = key
            · rcases var with _ | v <;> simp [ho, hfs, hq, hres, he, hk]
            · simp [ho, hfs, hq, hres, he, hk]
          · simp [ho, hfs, hq, hres, he]
      · simp [ho, hfs, hq]
    · have hq : quidAvail isUuid d = false := by simp [quidAvail, hfs]
      simp [ho, hfs, hq]
  · simp [ho]

lemma searchFileBody_eq (key : String) (var : Option String)
    (d : DevInfo) (s : SState) :
    searchFileBody key var d s =
      if !d.allocOk then ({ s with errno := GrubErr.outOfMemory }, true)
      else if d.fileOpen (mkPath d.name key) then
        match var with
        | some v =>
            ({ s with count := s.count + 1, errno := GrubErr.none,
                      envWrites := s.envWrites ++ [(v, d.name)] }, true)
        | Option.none =>
            ({ s with count := s.count + 1, errno := GrubErr.none,
                      output := s.output ++ [" " ++ d.name] }, false)
      else ({ s with errno := GrubErr.none }, false) := by
  unfold searchFileBody foundAction
  by_cases ha : d.allocOk
  · by_cases hf : d.fileOpen (mkPath d.name key)
    · rcases var with _ | v <;> simp [ha, hf]
    · simp [ha, hf]
  · simp [ha]

lemma searchFsStep_skip (key : String) (var : Option String) (noFloppy isUuid : Bool)
    (d : DevInfo) (s : SState) (h : (noFloppy && cFloppy d.name) = true) :
    searchFsStep key var noFloppy isUuid d s =
      ({ s with visited := s.visited ++ [d.name] }, false) := by
  simp [searchFsStep, h]

lemma searchFsStep_go (key : String) (var : Option String) (noFloppy isUuid : Bool)
    (d : DevInfo) (s : SState) (h : (noFloppy && cFloppy d.name) = false) :
    searchFsStep key var noFloppy isUuid d s =
      searchFsBody key var isUuid d { s with visited := s.visited ++ [d.name] } := by
  simp [searchFsStep, h]

lemma searchFileStep_skip (key : String) (var : Option String) (noFloppy : Bool)
    (d : DevInfo) (s : SState) (h : (noFloppy && cFloppy d.name) = true) :
    searchFileStep key var noFloppy d s =
      ({ s with visited := s.visited ++ [d.name] }, false) := by
  simp [searchFileStep, h]

lemma searchFileStep_go (key : String) (var : Option String) (noFloppy : Bool)
    (d : DevInfo) (s : SState) (h : (noFloppy && cFloppy d.name) = false) :
    searchFileStep key var noFloppy d s =
      searchFileBody key var d { s with visited := s.visited ++ [d.name] } := by
  simp [searchFileStep, h]

lemma searchFsStep_nomatch (key : String) (var : Option String) (noFloppy isUuid : Bool)
    (d : DevInfo) (s : SState) (h1 : (noFloppy && cFloppy d.name) = false)
    (h2 : fsMatch key isUuid d = false) :
    searchFsStep key var noFloppy isUuid d s =
      ({ s with errno := GrubErr.none, visited := s.visited ++ [d.name] }, false) := by
  rw [searchFsStep_go key var noFloppy isUuid d s h1, searchFsBody_eq]
  simp [h2]

lemma searchFsStep_match_nobind (key : String) (noFloppy isUuid : Bool)
    (d : DevInfo) (s : SState) (h1 : (noFloppy && cFloppy d.name) = false)
    (h2 : fsMatch key isUuid d = true) :
    searchFsStep key Option.none noFloppy isUuid d s =
      ({ s with count := s.count + 1, errno := GrubErr.none,
                output := s.output ++ [" " ++ d.name],
                visited := s.visited ++ [d.name] }, false) := by
  rw [searchFsStep_go key Option.none noFloppy isUuid d s h1, searchFsBody_eq]
  simp [h2]

lemma searchFsStep_match_bind (key v : String) (noFloppy isUuid : Bool)
    (d : DevInfo) (s : SState) (h1 : (noFloppy && cFloppy d.name) = false)
    (h2 : fsMatch key isUuid d = true) :
    searchFsStep key (some v) noFloppy isUuid d s =
      ({ s with count := s.count + 1, errno := GrubErr.none,
                envWrites := s.envWrites ++ [(v, d.name)],
                visited := s.visited ++ [d.name] }, true) := by
  rw [searchFsStep_go key (some v) noFloppy isUuid d s h1, searchFsBody_eq]
  simp [h2]

lemma searchFileStep_abort (key : String) (var : Option String) (noFloppy : Bool)
    (d : DevInfo) (s : SState) (h1 : (noFloppy && cFloppy d.name) = false)
    (h2 : d.allocOk = false) :
    searchFileStep key var noFloppy d s =
      ({ s with errno := GrubErr.outOfMemory, visited := s.visited ++ [d.name] }, true) := by
  rw [searchFileStep_go key var noFloppy d s h1, searchFileBody_eq]
  simp [h2]

lemma searchFileStep_nomatch (key : String) (var : Option String) (noFloppy : Bool)
    (d : DevInfo) (s : SState) (h1 : (noFloppy && cFloppy d.name) = false)
    (h2 : d.allocOk = true) (h3 : d.fileOpen (mkPath d.name key) = false) :
    searchFileStep key var noFloppy d s =
      ({ s with errno := GrubErr.none, visited := s.visited ++ [d.name] }, false) := by
  rw [searchFileStep_go key var noFloppy d s h1, searchFileBody_eq]
  simp [h2, h3]

lemma searchFileStep_match_nobind (key : String) (noFloppy : Bool)
    (d : DevInfo) (s : SState) (h1 : (noFloppy && cFloppy d.name) = false)
    (h2 : d.allocOk = true) (h3 : d.fileOpen (mkPath d.name key) = true) :
    searchFileStep key Option.none noFloppy d s =
      ({ s with count := s.count + 1, errno := GrubErr.none,
                output := s.output ++ [" " ++ d.name],
                visited := s.visited ++ [d.name] }, false) := by
  rw [searchFileStep_go key Option.none noFloppy d s h1, searchFileBody_eq]
  simp [h2, h3]

lemma searchFileStep_match_bind (key v : String) (noFloppy : Bool)
    (d : DevInfo) (s : SState) (h1 : (noFloppy && cFloppy d.name) = false)
    (h2 : d.allocOk = true) (h3 : d.fileOpen (mkPath d.name key) = true) :
    searchFileStep key (some v) noFloppy d s =
      ({ s with count := s.count + 1, errno := GrubErr.none,
                envWrites := s.envWrites ++ [(v, d.name)],
                visited := s.visited ++ [d.name] }, true) := by
  rw [searchFileStep_go key (some v) noFloppy d s h1, searchFileBody_eq]
  simp [h2, h3]

lemma run_fs_nobind (key : String) (noFloppy isUuid : Bool)
    (devs : List DevInfo) (s : SState) (h : s.errno = GrubErr.none) :
    grub_device_iterate (searchFsStep key Option.none noFloppy isUuid) devs s =
      { s with
        count := s.count + (devs.filter (effFsMatch key noFloppy isUuid)).length,
        errno := GrubErr.none,
        output := s.output ++ (devs.filter (effFsMatch key noFloppy isUuid)).map
          (fun x => " " ++ x.name),
        visited := s.visited ++ devs.map DevInfo.name } := by
  induction devs generalizing s with
  | nil => cases s; simp_all [grub_device_iterate]
  | cons d ds ih =>
    rw [grub_device_iterate]
    by_cases hskip : (noFloppy && cFloppy d.name) = true
    · have hm : effFsMatch key noFloppy isUuid d = false := by
        simp [effFsMatch, hskip]
      rw [searchFsStep_skip key _ noFloppy isUuid d s hskip, if_neg (by simp)]
      dsimp only
      rw [ih { s with visited := s.visited ++ [d.name] } h]
      simp [List.filter_cons, hm, List.append_assoc]
    · replace hskip : (noFloppy && cFloppy d.name) = false := by simpa using hskip
      by_cases hm : fsMatch key isUuid d
      · rw [searchFsStep_match_nobind key noFloppy isUuid d s hskip hm, if_neg (by simp)]
        dsimp only
        rw [ih { s with count := s.count + 1, errno := GrubErr.none,
                        output := s.output ++ [" " ++ d.name],
                        visited := s.visited ++ [d.name] } rfl]
        have heff : effFsMatch key noFloppy isUuid d = true := by
          simp [effFsMatch, hskip, hm]
        simp [List.filter_cons, heff, List.append_assoc]
        omega
      · replace hm : fsMatch key isUuid d = false := by simpa using hm
        rw [searchFsStep_nomatch key _ noFloppy isUuid d s hskip hm, if_neg (by simp)]
        dsimp only
        rw [ih { s with errno := GrubErr.none, visited := s.visited ++ [d.name] } rfl]
        have heff : effFsMatch key noFloppy isUuid d = false := by
          simp [effFsMatch, hskip, hm]
        simp [List.filter_cons, heff, List.append_assoc]

lemma run_fs_bind_nomatch (key v : String) (noFloppy isUuid : Bool)
    (devs : List DevInfo) (s : SState) (h : s.errno = GrubErr.none)
    (hall : ∀ d ∈ devs, effFsMatch key noFloppy isUuid d = false) :
    grub_device_iterate (searchFsStep key (some v) noFloppy isUuid) devs s =
      { s with errno := GrubErr.none, visited := s.visited ++ devs.map DevInfo.name } := by
  induction devs generalizing s with
  | nil => cases s; simp_all [grub_device_iterate]
  | cons d ds ih =>
    rw [grub_device_iterate]
    have hd := hall d (by simp)
    have hds : ∀ x ∈ ds, effFsMatch key noFloppy isUuid x = false := by
      intro x hx; exact hall x (by simp [hx])
    by_cases hskip : (noFloppy && cFloppy d.name) = true
    · rw [searchFsStep_skip key _ noFloppy isUuid d s hskip, if_neg (by simp)]
      dsimp only
      rw [ih { s with visited := s.visited ++ [d.name] } h hds]
      simp [List.append_assoc]
    · replace hskip : (noFloppy && cFloppy d.name) = false := by simpa using hskip
      have hm : fsMatch key isUuid d = false := by
        have := hd; simp [effFsMatch, hskip] at this; exact this
      rw [searchFsStep_nomatch key _ noFloppy isUuid d s hskip hm, if_neg (by simp)]
      dsimp only
      rw [ih { s with errno := GrubErr.none, visited := s.visited ++ [d.name] } rfl hds]
      simp [List.append_assoc]

lemma run_fs_bind_match (key v : String) (noFloppy isUuid : Bool)
    (pre : List DevInfo) (dM : DevInfo) (rest : List DevInfo) (s : SState)
    (h : s.errno = GrubErr.none)
    (hpre : ∀ d ∈ pre, effFsMatch key noFloppy isUuid d = false)
    (hd : effFsMatch key noFloppy isUuid dM = true) :
    grub_device_iterate (searchFsStep key (some v) noFloppy isUuid) (pre ++ dM :: rest) s =
      { s with count := s.count + 1, errno := GrubErr.none,
               envWrites := s.envWrites ++ [(v, dM.name)],
               visited := s.visited ++ pre.map DevInfo.name ++ [dM.name] } := by
  induction pre generalizing s with
  | nil =>
    simp only [List.nil_append]
    rw [grub_device_iterate]
    have hskip : (noFloppy && cFloppy dM.name) = false := by
      rcases hb : (noFloppy && cFloppy dM.name) with _ | _
      · rfl
      · exfalso; simp [effFsMatch, hb] at hd
    have hm : fsMatch key isUuid dM = true := by
      simp [effFsMatch, hskip] at hd; exact hd
    rw [searchFsStep_match_bind key v noFloppy isUuid dM s hskip hm, if_pos rfl]
    simp
  | cons d ds ih =>
    simp only [List.cons_append]
    rw [grub_device_iterate]
    have hdd := hpre d (by simp)
    have hds : ∀ x ∈ ds, effFsMatch key noFloppy isUuid x = false := by
      intro x hx; exact hpre x (by simp [hx])
    by_cases hskip : (noFloppy && cFloppy d.name) = true
    · rw [searchFsStep_skip key _ noFloppy isUuid d s hskip, if_neg (by simp)]
      dsimp only
      rw [ih { s with visited := s.visited ++ [d.name] } h hds]
      simp [List.append_assoc]
    · replace hskip : (noFloppy && cFloppy d.name) = false := by simpa using hskip
      have hm : fsMatch key isUuid d = false := by
        have := hdd; simp [effFsMatch, hskip] at this; exact this
      rw [searchFsStep_nomatch key _ noFloppy isUuid d s hskip hm, if_neg (by simp)]
      dsimp only
      rw [ih { s with errno := GrubErr.none, visited := s.visited ++ [d.name] } rfl hds]
      simp [List.append_assoc]

lemma run_file_nobind_noabort (key : String) (noFloppy : Bool)
    (devs : List DevInfo) (s : SState) (h : s.errno = GrubErr.none)
    (hall : ∀ d ∈ devs, stopA noFloppy d = false) :
    grub_device_iterate (searchFileStep key Option.none noFloppy) devs s =
      { s with
        count := s.count + (devs.filter (effFMatch key noFloppy)).length,
        errno := GrubErr.none,
        output := s.output ++ (devs.filter (effFMatch key noFloppy)).map
          (fun x => " " ++ x.name),
        visited := s.visited ++ devs.map DevInfo.name } := by
  induction devs generalizing s with
  | nil => cases s; simp_all [grub_device_iterate]
  | cons d ds ih =>
    rw [grub_device_iterate]
    have hd := hall d (by simp)
    have hds : ∀ x ∈ ds, stopA noFloppy x = false := by
      intro x hx; exact hall x (by simp [hx])
    by_cases hskip : (noFloppy && cFloppy d.name) = true
    · have hm : effFMatch key noFloppy d = false := by
        simp [effFMatch, hskip]
      rw [searchFileStep_skip key _ noFloppy d s hskip, if_neg (by simp)]
      dsimp only
      rw [ih { s with visited := s.visited ++ [d.name] } h hds]
      simp [List.filter_cons, hm, List.append_assoc]
    · replace hskip : (noFloppy && cFloppy d.name) = false := by simpa using hskip
      have ha : d.allocOk = true := by
        have := hd; simp [stopA, hskip] at this; exact this
      by_cases hf : d.fileOpen (mkPath d.name key) = true
      · have heff : effFMatch key noFloppy d = true := by
          simp [effFMatch, hskip, ha, hf]
        rw [searchFileStep_match_nobind key noFloppy d s hskip ha hf, if_neg (by simp)]
        dsimp only
        rw [ih { s with count := s.count + 1, errno := GrubErr.none,
                        output := s.output ++ [" " ++ d.name],
                        visited := s.visited ++ [d.name] } rfl hds]
        simp [List.filter_cons, heff, List.append_assoc]
        omega
      · replace hf : d.fileOpen (mkPath d.name key) = false := by simpa using hf
        have heff : effFMatch key noFloppy d = false := by
          simp [effFMatch, hskip, ha, hf]
        rw [searchFileStep_nomatch key _ noFloppy d s hskip ha hf, if_neg (by simp)]
        dsimp only
        rw [ih { s with errno := GrubErr.none, visited := s.visited ++ [d.name] } rfl hds]
        simp [List.filter_cons, heff, List.append_assoc]

lemma run_file_nobind_abort (key : String) (noFloppy : Bool)
    (pre : List DevInfo) (dA : DevInfo) (rest : List DevInfo) (s : SState)
    (h : s.errno = GrubErr.none)
    (hpre : ∀ d ∈ pre, stopA noFloppy d = false)
    (hA : stopA noFloppy dA = true) :
    grub_device_iterate (searchFileStep key Option.none noFloppy) (pre ++ dA :: rest) s =
      { s with
        count := s.count + (pre.filter (effFMatch key noFloppy)).length,
        errno := GrubErr.outOfMemory,
        output := s.output ++ (pre.filter (effFMatch key noFloppy)).map
          (fun x => " " ++ x.name),
        visited := s.visited ++ pre.map DevInfo.name ++ [dA.name] } := by
  induction pre generalizing s with
  | nil =>
    simp only [List.nil_append]
    rw [grub_device_iterate]
    have hskip : (noFloppy && cFloppy dA.name) = false := by
      rcases hb : (noFloppy && cFloppy dA.name) with _ | _
      · rfl
      · exfalso; simp [stopA, hb] at hA
    have ha : dA.allocOk = false := by
      simp [stopA, hskip] at hA; exact hA
    rw [searchFileStep_abort key _ noFloppy dA s hskip ha, if_pos rfl]
    simp
  | cons d ds ih =>
    simp only [List.cons_append]
    rw [grub_device_iterate]
    have hd := hpre d (by simp)
    have hds : ∀ x ∈ ds, stopA noFloppy x = false := by
      intro x hx; exact hpre x (by simp [hx])
    by_cases hskip : (noFloppy && cFloppy d.name) = true
    · have hm : effFMatch key noFloppy d = false := by
        simp [effFMatch, hskip]
      rw [searchFileStep_skip key _ noFloppy d s hskip, if_neg (by simp)]
      dsimp only
      rw [ih { s with visited := s.visited ++ [d.name] } h hds]
      simp [List.filter_cons, hm, List.append_assoc]
    · replace hskip : (noFloppy && cFloppy d.name) = false := by simpa using hskip
      have ha : d.allocOk = true := by
        have := hd; simp [stopA, hskip] at this; exact this
      by_cases hf : d.fileOpen (mkPath d.name key) = true
      · have heff : effFMatch key noFloppy d = true := by
          simp [effFMatch, hskip, ha, hf]
        rw [searchFileStep_match_nobind key noFloppy d s hskip ha hf, if_neg (by simp)]
        dsimp only
        rw [ih { s with count := s.count + 1, errno := GrubErr.none,
                        output := s.output ++ [" " ++ d.name],
                        visited := s.visited ++ [d.name] } rfl hds]
        simp [List.filter_cons, heff, List.append_assoc]
        omega
      · replace hf : d.fileOpen (mkPath d.name key) = false := by simpa using hf
        have heff : effFMatch key noFloppy d = false := by
          simp [effFMatch, hskip, ha, hf]
        rw [searchFileStep_nomatch key _ noFloppy d s hskip ha hf, if_neg (by simp)]
        dsimp only
        rw [ih { s with errno := GrubErr.none, visited := s.visited ++ [d.name] } rfl hds]
        simp [List.filter_cons, heff, List.append_assoc]

lemma run_file_bind_nostop (key v : String) (noFloppy : Bool)
    (devs : List DevInfo) (s : SState) (h : s.errno = GrubErr.none)
    (hall : ∀ d ∈ devs, stopA noFloppy d = false ∧ effFMatch key noFloppy d = false) :
    grub_device_iterate (searchFileStep key (some v) noFloppy) devs s =
      { s with errno := GrubErr.none, visited := s.visited ++ devs.map DevInfo.name } := by
  induction devs generalizing s with
  | nil => cases s; simp_all [grub_device_iterate]
  | cons d ds ih =>
    rw [grub_device_iterate]
    have hd := hall d (by simp)
    have hds : ∀ x ∈ ds, stopA noFloppy x = false ∧ effFMatch key noFloppy x = false := by
      intro x hx; exact hall x (by simp [hx])
    by_cases hskip : (noFloppy && cFloppy d.name) = true
    · rw [searchFileStep_skip key _ noFloppy d s hskip, if_neg (by simp)]
      dsimp only
      rw [ih { s with visited := s.visited ++ [d.name] } h hds]
      simp [List.append_assoc]
    · replace hskip : (noFloppy && cFloppy d.name) = false := by simpa using hskip
      have ha : d.allocOk = true := by
        have := hd.1; simp [stopA, hskip] at this; exact this
      have hf : d.fileOpen (mkPath d.name key) = false := by
        have := hd.2; simp [effFMatch, hskip, ha] at this; exact this
      rw [searchFileStep_nomatch key _ noFloppy d s hskip ha hf, if_neg (by simp)]
      dsimp only
      rw [ih { s with errno := GrubErr.none, visited := s.visited ++ [d.name] } rfl hds]
      simp [List.append_assoc]

lemma run_file_bind_match (key v : String) (noFloppy : Bool)
    (pre : List DevInfo) (dM : DevInfo) (rest : List DevInfo) (s : SState)
    (h : s.errno = GrubErr.none)
    (hpre : ∀ d ∈ pre, stopA noFloppy d = false ∧ effFMatch key noFloppy d = false)
    (hd : effFMatch key noFloppy dM = true) :
    grub_device_iterate (searchFileStep key (some v) noFloppy) (pre ++ dM :: rest) s =
      { s with count := s.count + 1, errno := GrubErr.none,
               envWrites := s.envWrites ++ [(v, dM.name)],
               visited := s.visited ++ pre.map DevInfo.name ++ [dM.name] } := by
  induction pre generalizing s with
  | nil =>
    simp only [List.nil_append]
    rw [grub_device_iterate]
    have hskip : (noFloppy && cFloppy dM.name) = false := by
      rcases hb : (noFloppy && cFloppy dM.name) with _ | _
      · rfl
      · exfalso; simp [effFMatch, hb] at hd
    have ha : dM.allocOk = true := by
      rcases hb : dM.allocOk with _ | _
      · exfalso; simp [effFMatch, hskip, hb] at hd
      · rfl
    have hf : dM.fileOpen (mkPath dM.name key) = true := by
      simp [effFMatch, hskip, ha] at hd; exact hd
    rw [searchFileStep_match_bind key v noFloppy dM s hskip ha hf, if_pos rfl]
    simp
  | cons d ds ih =>
    simp only [List.cons_append]
    rw [grub_device_iterate]
    have hdd := hpre d (by simp)
    have hds : ∀ x ∈ ds, stopA noFloppy x = false ∧ effFMatch key noFloppy x = false := by
      intro x hx; exact hpre x (by simp [hx])
    by_cases hskip : (noFloppy && cFloppy d.name) = true
    · rw [searchFileStep_skip key _ noFloppy d s hskip, if_neg (by simp)]
      dsimp only
      rw [ih { s with visited := s.visited ++ [d.name] } h hds]
      simp [List.append_assoc]
    · replace hskip : (noFloppy && cFloppy d.name) = false := by simpa using hskip
      have ha : d.allocOk = true := by
        have := hdd.1; simp [stopA, hskip] at this; exact this
      have hf : d.fileOpen (mkPath d.name key) = false := by
        have := hdd.2; simp [effFMatch, hskip, ha] at this; exact this
      rw [searchFileStep_nomatch key _ noFloppy d s hskip ha hf, if_neg (by simp)]
      dsimp only
      rw [ih { s with errno := GrubErr.none, visited := s.visited ++ [d.name] } rfl hds]
      simp [List.append_assoc]

lemma run_file_bind_abort (key v : String) (noFloppy : Bool)
    (pre : List DevInfo) (dA : DevInfo) (rest : List DevInfo) (s : SState)
    (h : s.errno = GrubErr.none)
    (hpre : ∀ d ∈ pre, stopA noFloppy d = false ∧ effFMatch key noFloppy d = false)
    (hA : stopA noFloppy dA = true) :
    grub_device_iterate (searchFileStep key (some v) noFloppy) (pre ++ dA :: rest) s =
      { s with errno := GrubErr.outOfMemory,
               visited := s.visited ++ pre.map DevInfo.name ++ [dA.name] } := by
  induction pre generalizing s with
  | nil =>
    simp only [List.nil_append]
    rw [grub_device_iterate]
    have hskip : (noFloppy && cFloppy dA.name) = false := by
      rcases hb : (noFloppy && cFloppy dA.name) with _ | _
      · rfl
      · exfalso; simp [stopA, hb] at hA
    have ha : dA.allocOk = false := by
      simp [stopA, hskip] at hA; exact hA
    rw [searchFileStep_abort key _ noFloppy dA s hskip ha, if_pos rfl]
    simp
  | cons d ds ih =>
    simp only [List.cons_append]
    rw [grub_device_iterate]
    have hdd := hpre d (by simp)
    have hds : ∀ x ∈ ds, stopA noFloppy x = false ∧ effFMatch key noFloppy x = false := by
      intro x hx; exact hpre x (by simp [hx])
    by_cases hskip : (noFloppy && cFloppy d.name) = true
    · rw [searchFileStep_skip key _ noFloppy d s hskip, if_neg (by simp)]
      dsimp only
      rw [ih { s with visited := s.visited ++ [d.name] } h hds]
      simp [List.append_assoc]
    · replace hskip : (noFloppy && cFloppy d.name) = false := by simpa using hskip
      have ha : d.allocOk = true := by
        have := hdd.1; simp [stopA, hskip] at this; exact this
      have hf : d.fileOpen (mkPath d.name key) = false := by
        have := hdd.2; simp [effFMatch, hskip, ha] at this; exact this
      rw [searchFileStep_nomatch key _ noFloppy d s hskip ha hf, if_neg (by simp)]
      dsimp only
      rw [ih { s with errno := GrubErr.none, visited := s.visited ++ [d.name] } rfl hds]
      simp [List.append_assoc]

lemma iterate_fs_errno (key : String) (var : Option String) (noFloppy isUuid : Bool)
    (devs : List DevInfo) (s : SState) (h : s.errno = GrubErr.none) :
    (grub_device_iterate (searchFsStep key var noFloppy isUuid) devs s).errno =
      GrubErr.none := by
  induction devs generalizing s with
  | nil => simpa [grub_device_iterate] using h
  | cons d ds ih =>
    rw [grub_device_iterate]
    by_cases hskip : (noFloppy && cFloppy d.name) = true
    · rw [searchFsStep_skip key var noFloppy isUuid d s hskip, if_neg (by simp)]
      exact ih _ h
    · replace hskip : (noFloppy && cFloppy d.name) = false := by simpa using hskip
      by_cases hm : fsMatch key isUuid d
      · rcases var with _ | v
        · rw [searchFsStep_match_nobind key noFloppy isUuid d s hskip hm, if_neg (by simp)]
          exact ih _ rfl
        · rw [searchFsStep_match_bind key v noFloppy isUuid d s hskip hm, if_pos rfl]
      · replace hm : fsMatch key isUuid d = false := by simpa using hm
        rw [searchFsStep_nomatch key var noFloppy isUuid d s hskip hm, if_neg (by simp)]
        exact ih _ rfl

lemma iterate_file_errno (key : String) (var : Option String) (noFloppy : Bool)
    (devs : List DevInfo) (s : SState) (h : s.errno = GrubErr.none) :
    (grub_device_iterate (searchFileStep key var noFloppy) devs s).errno = GrubErr.none ∨
    (grub_device_iterate (searchFileStep key var noFloppy) devs s).errno =
      GrubErr.outOfMemory := by
  induction devs generalizing s with
  | nil => left; simpa [grub_device_iterate] using h
  | cons d ds ih =>
    rw [grub_device_iterate]
    by_cases hskip : (noFloppy && cFloppy d.name) = true
    · rw [searchFileStep_skip key var noFloppy d s hskip, if_neg (by simp)]
      exact ih _ h
    · replace hskip : (noFloppy && cFloppy d.name) = false := by simpa using hskip
      by_cases ha : d.allocOk = true
      · by_cases hf : d.fileOpen (mkPath d.name key) = true
        · rcases var with _ | v
          · rw [searchFileStep_match_nobind key noFloppy d s hskip ha hf, if_neg (by simp)]
            exact ih _ rfl
          · rw [searchFileStep_match_bind key v noFloppy d s hskip ha hf, if_pos rfl]
            left; rfl
        · replace hf : d.fileOpen (mkPath d.name key) = false := by simpa using hf
          rw [searchFileStep_nomatch key var noFloppy d s hskip ha hf, if_neg (by simp)]
          exact ih _ rfl
      · replace ha : d.allocOk = false := by simpa using ha
        rw [searchFileStep_abort key var noFloppy d s hskip ha, if_pos rfl]
        right; rfl

lemma search_fs_envWrites (key : String) (var : Option String) (noFloppy isUuid : Bool)
    (devs : List DevInfo) (s : SState) :
    (search_fs key var noFloppy isUuid devs s).envWrites =
      (grub_device_iterate (searchFsStep key var noFloppy isUuid) devs s).envWrites := by
  unfold search_fs; dsimp only; split <;> rfl

lemma search_fs_visited (key : String) (var : Option String) (noFloppy isUuid : Bool)
    (devs : List DevInfo) (s : SState) :
    (search_fs key var noFloppy isUuid devs s).visited =
      (grub_device_iterate (searchFsStep key var noFloppy isUuid) devs s).visited := by
  unfold search_fs; dsimp only; split <;> rfl

lemma search_fs_output (key : String) (var : Option String) (noFloppy isUuid : Bool)
    (devs : List DevInfo) (s : SState) :
    (search_fs key var noFloppy isUuid devs s).output =
      (grub_device_iterate (searchFsStep key var noFloppy isUuid) devs s).output := by
  unfold search_fs; dsimp only; split <;> rfl

lemma search_fs_count (key : String) (var : Option String) (noFloppy isUuid : Bool)
    (devs : List DevInfo) (s : SState) :
    (search_fs key var noFloppy isUuid devs s).count =
      (grub_device_iterate (searchFsStep key var noFloppy isUuid) devs s).count := by
  unfold search_fs; dsimp only; split <;> rfl

lemma search_fs_errno (key : String) (var : Option String) (noFloppy isUuid : Bool)
    (devs : List DevInfo) (s : SState) :
    (search_fs key var noFloppy isUuid devs s).errno =
      (if (grub_device_iterate (searchFsStep key var noFloppy isUuid) devs s).count = 0
       then GrubErr.fileNotFound
       else (grub_device_iterate (searchFsStep key var noFloppy isUuid) devs s).errno) := by
  unfold search_fs
  dsimp only
  by_cases hc : (grub_device_iterate (searchFsStep key var noFloppy isUuid) devs s).count = 0
  · rw [if_pos hc, if_pos hc]
  · rw [if_neg hc, if_neg hc]

lemma search_file_envWrites (key : String) (var : Option String) (noFloppy : Bool)
    (devs : List DevInfo) (s : SState) :
    (search_file key var noFloppy devs s).envWrites =
      (grub_device_iterate (searchFileStep key var noFloppy) devs s).envWrites := by
  unfold search_file; dsimp only; split <;> rfl

lemma search_file_visited (key : String) (var : Option String) (noFloppy : Bool)
    (devs : List DevInfo) (s : SState) :
    (search_file key var noFloppy devs s).visited =
      (grub_device_iterate (searchFileStep key var noFloppy) devs s).visited := by
  unfold search_file; dsimp only; split <;> rfl

lemma search_file_output (key : String) (var : Option String) (noFloppy : Bool)
    (devs : List DevInfo) (s : SState) :
    (search_file key var noFloppy devs s).output =
      (grub_device_iterate (searchFileStep key var noFloppy) devs s).output := by
  unfold search_file; dsimp only; split <;> rfl

lemma search_file_count (key : String) (var : Option String) (noFloppy : Bool)
    (devs : List DevInfo) (s : SState) :
    (search_file key var noFloppy devs s).count =
      (grub_device_iterate (searchFileStep key var noFloppy) devs s).count := by
  unfold search_file; dsimp only; split <;> rfl

lemma search_file_errno (key : String) (var : Option String) (noFloppy : Bool)
    (devs : List DevInfo) (s : SState) :
    (search_file key var noFloppy devs s).errno =
      (if (grub_device_iterate (searchFileStep key var noFloppy) devs s).errno = GrubErr.none ∧
          (grub_device_iterate (searchFileStep key var noFloppy) devs s).count = 0
       then GrubErr.fileNotFound
       else (grub_device_iterate (searchFileStep key var noFloppy) devs s).errno) := by
  unfold search_file
  dsimp only
  by_cases hc : (grub_device_iterate (searchFileStep key var noFloppy) devs s).errno =
      GrubErr.none ∧ (grub_device_iterate (searchFileStep key var noFloppy) devs s).count = 0
  · rw [if_pos hc, if_pos hc]
  · rw [if_neg hc, if_neg hc]

lemma splitAtFirst {α : Type} (p : α → Bool) (l : List α) :
    (∀ a ∈ l, p a = false) ∨
    ∃ pre x rest, l = pre ++ x :: rest ∧ (∀ a ∈ pre, p a = false) ∧ p x = true := by
  induction l with
  | nil => left; simp
  | cons a l ih =>
    rcases ha : p a with _ | _
    · rcases ih with hall | ⟨pre, x, rest, rfl, hpre, hx⟩
      · left; intro b hb
        rcases List.mem_cons.mp hb with rfl | hb
        · exact ha
        · exact hall b hb
      · right; refine ⟨a :: pre, x, rest, rfl, ?_, hx⟩
        intro b hb
        rcases List.mem_cons.mp hb with rfl | hb
        · exact ha
        · exact hpre b hb
    · right; exact ⟨[], a, l, rfl, by simp, ha⟩

lemma findSplit {α : Type} (p : α → Bool) (pre : List α) (x : α) (rest : List α)
    (hpre : ∀ a ∈ pre, p a = false) (hx : p x = true) :
    (pre ++ x :: rest).find? p = some x := by
  induction pre with
  | nil => simp [List.find?, hx]
  | cons a l ih =>
    have ha := hpre a (by simp)
    rw [List.cons_append, List.find?_cons_of_neg _ (by simp [ha])]
    exact ih (fun b hb => hpre b (by simp [hb]))

lemma findEqNone {α : Type} (p : α → Bool) (l : List α)
    (h : ∀ a ∈ l, p a = false) : l.find? p = Option.none := by
  induction l with
  | nil => rfl
  | cons a l ih =>
    rw [List.find?_cons_of_neg _ (by simp [h a (by simp)])]
    exact ih (fun b hb => h b (by simp [hb]))

lemma takeWhileAll {α : Type} (p : α → Bool) (l : List α)
    (h : ∀ a ∈ l, p a = true) : l.takeWhile p = l := by
  induction l with
  | nil => rfl
  | cons a l ih =>
    have ha := h a (by simp)
    simp [List.takeWhile, ha, ih (fun b hb => h b (by simp [hb]))]

lemma takeWhileAppendAll {α : Type} (p : α → Bool) (l1 l2 : List α)
    (h : ∀ a ∈ l1, p a = true) :
    (l1 ++ l2).takeWhile p = l1 ++ l2.takeWhile p := by
  induction l1 with
  | nil => rfl
  | cons a l ih =>
    have ha := h a (by simp)
    simp [List.takeWhile, ha, ih (fun b hb => h b (by simp [hb]))]

lemma takeWhileSplit {α : Type} (p : α → Bool) (pre : List α) (x : α) (rest : List α)
    (hpre : ∀ a ∈ pre, p a = true) (hx : p x = false) :
    (pre ++ x :: rest).takeWhile p = pre := by
  rw [takeWhileAppendAll p pre (x :: rest) hpre]
  simp [List.takeWhile, hx]

lemma digit_decide_eq_isDigit (c : Char) :
    (decide ('0' ≤ c) && decide (c ≤ '9')) = c.isDigit := rfl

lemma cFloppy_eq_specFloppy (name : String) : cFloppy name = specFloppy name := by
  obtain ⟨l⟩ := name
  match l with
  | [] => decide
  | [a] =>
    show cFloppy ⟨[a]⟩ = specFloppy ⟨[a]⟩
    simp [cFloppy, specFloppy, cstrNth]
  | [a, b] =>
    show cFloppy ⟨[a, b]⟩ = specFloppy ⟨[a, b]⟩
    simp [cFloppy, specFloppy, cstrNth]
  | a :: b :: c :: t =>
    show cFloppy ⟨a :: b :: c :: t⟩ = specFloppy ⟨a :: b :: c :: t⟩
    have h3 : (3 ≤ (String.mk (a :: b :: c :: t)).length) := by
      simp [String.length]
    simp [cFloppy, specFloppy, cstrNth, h3, ← digit_decide_eq_isDigit]

/-- C1. For every search invocation (label, uuid or file mode), after device
enumeration completes the call reports `GRUB_ERR_FILE_NOT_FOUND` if and only
if the running match count is zero and no per-device error is still pending
from the last step; when such an error is pending, it propagates in place of
the not-found error. -/
theorem c1_notfound_iff (m : SMode) (key : String) (var : Option String) (noFloppy : Bool)
    (devs : List DevInfo) :
    ((runSearch m key var noFloppy devs).errno = GrubErr.fileNotFound ↔
      ((runIterate m key var noFloppy devs).count = 0 ∧
       (runIterate m key var noFloppy devs).errno = GrubErr.none)) ∧
    ((runIterate m key var noFloppy devs).errno ≠ GrubErr.none →
      (runSearch m key var noFloppy devs).errno = (runIterate m key var noFloppy devs).errno) := by
  cases m
  case label =>
    simp only [runSearch, runIterate, modeStep]
    have hE := iterate_fs_errno key var noFloppy false devs initState rfl
    rw [search_fs_errno key var noFloppy false devs initState]
    constructor
    · by_cases hc : (grub_device_iterate (searchFsStep key var noFloppy false) devs
          initState).count = 0
      · rw [if_pos hc]; simp [hc, hE]
      · rw [if_neg hc]; simp [hc, hE]
    · intro hne; exact absurd hE hne
  case uuid =>
    simp only [runSearch, runIterate, modeStep]
    have hE := iterate_fs_errno key var noFloppy true devs initState rfl
    rw [search_fs_errno key var noFloppy true devs initState]
    constructor
    · by_cases hc : (grub_device_iterate (searchFsStep key var noFloppy true) devs
          initState).count = 0
      · rw [if_pos hc]; simp [hc, hE]
      · rw [if_neg hc]; simp [hc, hE]
    · intro hne; exact absurd hE hne
  case file =>
    simp only [runSearch, runIterate, modeStep]
    rw [search_file_errno key var noFloppy devs initState]
    rcases iterate_file_errno key var noFloppy devs initState rfl with hE | hE
    · constructor
      · by_cases hc : (grub_device_iterate (searchFileStep key var noFloppy) devs
            initState).count = 0
        · rw [if_pos ⟨hE, hc⟩]; simp [hc, hE]
        · rw [if_neg (by intro hand; exact hc hand.2)]; simp [hc, hE]
      · intro hne; exact absurd hE hne
    · rw [if_neg (by intro hand; rw [hE] at hand; exact absurd hand.1 (by simp))]
      constructor
      · rw [hE]; simp
      · intro _; rfl

lemma c3_fs_aux (key v : String) (noFloppy isUuid : Bool) (devs : List DevInfo) :
    ((search_fs key (some v) noFloppy isUuid devs initState).envWrites = [] ∨
      ∃ d, devs.find? (effFsMatch key noFloppy isUuid) = some d ∧
        (search_fs key (some v) noFloppy isUuid devs initState).envWrites = [(v, d.name)]) ∧
    (search_fs key (some v) noFloppy isUuid devs initState).visited <+:
      devs.map DevInfo.name ∧
    (search_fs key (some v) noFloppy isUuid devs initState).visited.length ≤
      (devs.takeWhile (fun d => !effFsMatch key noFloppy isUuid d)).length + 1 := by
  rcases splitAtFirst (effFsMatch key noFloppy isUuid) devs with
    hall | ⟨pre, x, rest, rfl, hpre, hx⟩
  · have hrun := run_fs_bind_nomatch key v noFloppy isUuid devs initState rfl hall
    refine ⟨Or.inl ?_, ?_, ?_⟩
    · rw [search_fs_envWrites key (some v) noFloppy isUuid devs initState, hrun]
      rfl
    · rw [search_fs_visited key (some v) noFloppy isUuid devs initState, hrun]
      exact List.prefix_refl _
    · rw [search_fs_visited key (some v) noFloppy isUuid devs initState, hrun]
      rw [takeWhileAll (fun d => !effFsMatch key noFloppy isUuid d) devs
        (fun a ha => by simp [hall a ha])]
      simp [initState]
  · have hrun := run_fs_bind_match key v noFloppy isUuid pre x rest initState rfl hpre hx
    refine ⟨Or.inr ⟨x, findSplit _ pre x rest hpre hx, ?_⟩, ?_, ?_⟩
    · rw [search_fs_envWrites key (some v) noFloppy isUuid (pre ++ x :: rest) initState, hrun]
      rfl
    · rw [search_fs_visited key (some v) noFloppy isUuid (pre ++ x :: rest) initState, hrun]
      refine ⟨rest.map DevInfo.name, ?_⟩
      simp [initState]
    · rw [search_fs_visited key (some v) noFloppy isUuid (pre ++ x :: rest) initState, hrun]
      rw [takeWhileSplit (fun d => !effFsMatch key noFloppy isUuid d) pre x rest
        (fun a ha => by simp [hpre a ha]) (by simp [hx])]
      simp [initState]

lemma c3_file_aux (key v : String) (noFloppy : Bool) (devs : List DevInfo) :
    ((search_file key (some v) noFloppy devs initState).envWrites = [] ∨
      ∃ d, devs.find? (effFMatch key noFloppy) = some d ∧
        (search_file key (some v) noFloppy devs initState).envWrites = [(v, d.name)]) ∧
    (search_file key (some v) noFloppy devs initState).visited <+:
      devs.map DevInfo.name ∧
    (search_file key (some v) noFloppy devs initState).visited.length ≤
      (devs.takeWhile (fun d => !effFMatch key noFloppy d)).length + 1 := by
  rcases splitAtFirst (fun d => stopA noFloppy d || effFMatch key noFloppy d) devs with
    hall | ⟨pre, x, rest, rfl, hpre, hx⟩
  · have hall2 : ∀ d ∈ devs, stopA noFloppy d = false ∧ effFMatch key noFloppy d = false := by
      intro d hd
      have := hall d hd
      simp only [Bool.or_eq_false_iff] at this
      exact this
    have hrun := run_file_bind_nostop key v noFloppy devs initState rfl hall2
    refine ⟨Or.inl ?_, ?_, ?_⟩
    · rw [search_file_envWrites key (some v) noFloppy devs initState, hrun]
      rfl
    · rw [search_file_visited key (some v) noFloppy devs initState, hrun]
      exact List.prefix_refl _
    · rw [search_file_visited key (some v) noFloppy devs initState, hrun]
      rw [takeWhileAll (fun d => !effFMatch key noFloppy d) devs
        (fun a ha => by simp [(hall2 a ha).2])]
      simp [initState]
  · have hpre2 : ∀ d ∈ pre, stopA noFloppy d = false ∧ effFMatch key noFloppy d = false := by
      intro d hd
      have := hpre d hd
      simp only [Bool.or_eq_false_iff] at this
      exact this
    by_cases hxe : effFMatch key noFloppy x = true
    · have hrun := run_file_bind_match key v noFloppy pre x rest initState rfl hpre2 hxe
      refine ⟨Or.inr ⟨x, findSplit _ pre x rest (fun a ha => (hpre2 a ha).2) hxe, ?_⟩, ?_, ?_⟩
      · rw [search_file_envWrites key (some v) noFloppy (pre ++ x :: rest) initState, hrun]
        rfl
      · rw [search_file_visited key (some v) noFloppy (pre ++ x :: rest) initState, hrun]
        refine ⟨rest.map DevInfo.name, ?_⟩
        simp [initState]
      · rw [search_file_visited key (some v) noFloppy (pre ++ x :: rest) initState, hrun]
        rw [takeWhileSplit (fun d => !effFMatch key noFloppy d) pre x rest
          (fun a ha => by simp [(hpre2 a ha).2]) (by simp [hxe])]
        simp [initState]
    · have hxs : stopA noFloppy x = true := by
        rcases hb : stopA noFloppy x with _ | _
        · exfalso
          rw [hb] at hx
          simp only [Bool.false_or] at hx
          exact hxe hx
        · rfl
      replace hxe : effFMatch key noFloppy x = false := by simpa using hxe
      have hrun := run_file_bind_abort key v noFloppy pre x rest initState rfl hpre2 hxs
      refine ⟨Or.inl ?_, ?_, ?_⟩
      · rw [search_file_envWrites key (some v) noFloppy (pre ++ x :: rest) initState, hrun]
        rfl
      · rw [search_file_visited key (some v) noFloppy (pre ++ x :: rest) initState, hrun]
        refine ⟨rest.map DevInfo.name, ?_⟩
        simp [initState]
      · rw [search_file_visited key (some v) noFloppy (pre ++ x :: rest) initState, hrun]
        rw [takeWhileAppendAll (fun d => !effFMatch key noFloppy d) pre (x :: rest)
          (fun a ha => by simp [(hpre2 a ha).2])]
        simp only [List.takeWhile, hxe]
        simp [initState]

/-- C3. In binding mode (variable name set), for every device set and key:
the environment-write list is empty or a single binding of the variable to
the first device in enumeration order whose tested attribute (or file
presence) matches the key; the visited devices form a prefix of the
enumeration that stops at the first such match. -/
theorem c3_binding_first_match (m : SMode) (key v : String) (noFloppy : Bool)
    (devs : List DevInfo) :
    ((runSearch m key (some v) noFloppy devs).envWrites = [] ∨
      ∃ d, devs.find? (effMatch m key noFloppy) = some d ∧
        (runSearch m key (some v) noFloppy devs).envWrites = [(v, d.name)]) ∧
    (runSearch m key (some v) noFloppy devs).visited <+: devs.map DevInfo.name ∧
    (runSearch m key (some v) noFloppy devs).visited.length ≤
      (devs.takeWhile (fun d => !effMatch m key noFloppy d)).length + 1 := by
  cases m
  case file => exact c3_file_aux key v noFloppy devs
  case label => exact c3_fs_aux key v noFloppy false devs
  case uuid => exact c3_fs_aux key v noFloppy true devs

/-- C4. In non-binding mode, in each of the three modes, the emitted output
is exactly the enumeration-ordered subset of the devices (after floppy
filtering) whose tested attribute (or file presence) equals the key, each
identifier prefixed with a single space.  For file mode the allocation
oracle is assumed to succeed, since an allocation failure aborts the
enumeration (see C10). -/
theorem c4_nonbinding_output (key : String) (noFloppy : Bool) (devs : List DevInfo)
    (hall : ∀ d ∈ devs, d.allocOk = true) :
    ((runSearch SMode.label key Option.none noFloppy devs).output =
      ((devs.filter (fun d => !(noFloppy && cFloppy d.name))).filter
          (fun d => fsAttr false d == some key)).map (fun d => " " ++ d.name)) ∧
    ((runSearch SMode.uuid key Option.none noFloppy devs).output =
      ((devs.filter (fun d => !(noFloppy && cFloppy d.name))).filter
          (fun d => fsAttr true d == some key)).map (fun d => " " ++ d.name)) ∧
    ((runSearch SMode.file key Option.none noFloppy devs).output =
      ((devs.filter (fun d => !(noFloppy && cFloppy d.name))).filter
          (fun d => d.fileOpen (mkPath d.name key))).map (fun d => " " ++ d.name)) := by
  refine ⟨?_, ?_, ?_⟩
  · have h2 : ((devs.filter (fun d => !(noFloppy && cFloppy d.name))).filter
        (fun d => fsAttr false d == some key)) = devs.filter (effFsMatch key noFloppy false) := by
      rw [List.filter_filter]
      exact List.filter_congr (fun x _ => by simp [effFsMatch, fsMatch, Bool.and_comm])
    rw [h2]
    show (search_fs key Option.none noFloppy false devs initState).output = _
    rw [search_fs_output key Option.none noFloppy false devs initState,
      run_fs_nobind key noFloppy false devs initState rfl]
    simp [initState]
  · have h2 : ((devs.filter (fun d => !(noFloppy && cFloppy d.name))).filter
        (fun d => fsAttr true d == some key)) = devs.filter (effFsMatch key noFloppy true) := by
      rw [List.filter_filter]
      exact List.filter_congr (fun x _ => by simp [effFsMatch, fsMatch, Bool.and_comm])
    rw [h2]
    show (search_fs key Option.none noFloppy true devs initState).output = _
    rw [search_fs_output key Option.none noFloppy true devs initState,
      run_fs_nobind key noFloppy true devs initState rfl]
    simp [initState]
  · have h2 : ((devs.filter (fun d => !(noFloppy && cFloppy d.name))).filter
        (fun d => d.fileOpen (mkPath d.name key))) = devs.filter (effFMatch key noFloppy) := by
      rw [List.filter_filter]
      refine List.filter_congr (fun x hx => ?_)
      simp [effFMatch, hall x hx, Bool.and_comm]
    rw [h2]
    show (search_file key Option.none noFloppy devs initState).output = _
    have hstop : ∀ d ∈ devs, stopA noFloppy d = false := fun d hd => by
      simp [stopA, hall d hd]
    rw [search_file_output key Option.none noFloppy devs initState,
      run_file_nobind_noabort key noFloppy devs initState rfl hstop]
    simp [initState]

/-- C5. Every per-device failure - device unavailable (open fails), probe
unsupported (no filesystem, or no label/uuid accessor, or accessor error or
NULL result), file absent - is cleared inside the per-device test: the
callback returns with `grub_errno` reset to `GRUB_ERR_NONE`, no abort, and
no change to count, bindings or output, so enumeration continues. -/
theorem c5_per_device_failures (key : String) (var : Option String) (noFloppy isUuid : Bool)
    (d : DevInfo) (s : SState) :
    ((noFloppy && cFloppy d.name) = false → d.openOk = false →
      searchFsStep key var noFloppy isUuid d s =
        ({ s with errno := GrubErr.none, visited := s.visited ++ [d.name] }, false)) ∧
    ((noFloppy && cFloppy d.name) = false → quidAvail isUuid d = false →
      searchFsStep key var noFloppy isUuid d s =
        ({ s with errno := GrubErr.none, visited := s.visited ++ [d.name] }, false)) ∧
    ((noFloppy && cFloppy d.name) = false → quidAvail isUuid d = true →
      ((quidRes isUuid d).1 ≠ GrubErr.none ∨ (quidRes isUuid d).2 = Option.none) →
      searchFsStep key var noFloppy isUuid d s =
        ({ s with errno := GrubErr.none, visited := s.visited ++ [d.name] }, false)) ∧
    ((noFloppy && cFloppy d.name) = false → d.allocOk = true →
      d.fileOpen (mkPath d.name key) = false →
      searchFileStep key var noFloppy d s =
        ({ s with errno := GrubErr.none, visited := s.visited ++ [d.name] }, false)) := by
  refine ⟨fun h1 h2 => ?_, fun h1 h2 => ?_, fun h1 h2 h3 => ?_, fun h1 h2 h3 => ?_⟩
  · exact searchFsStep_nomatch key var noFloppy isUuid d s h1 (by simp [fsMatch, fsAttr, h2])
  · exact searchFsStep_nomatch key var noFloppy isUuid d s h1 (by simp [fsMatch, fsAttr, h2])
  · refine searchFsStep_nomatch key var noFloppy isUuid d s h1 ?_
    rcases h3 with h3 | h3 <;> simp [fsMatch, fsAttr, h3]
  · exact searchFileStep_nomatch key var noFloppy d s h1 h2 h3

/-- C7. The floppy test of the source equals the pure predicate "length at
least 3, starts with 'f' then 'd', third character a decimal digit"; when
exclusion is requested both matchers return immediately on a floppy name
with no state change beyond the ghost visit log (nothing opened), and when
not requested both matchers run their bodies on every device alike. -/
theorem c7_floppy_filter (name key : String) (var : Option String) (isUuid : Bool)
    (d : DevInfo) (s : SState) :
    cFloppy name = specFloppy name ∧
    (cFloppy d.name = true →
      searchFsStep key var true isUuid d s =
        ({ s with visited := s.visited ++ [d.name] }, false) ∧
      searchFileStep key var true d s =
        ({ s with visited := s.visited ++ [d.name] }, false)) ∧
    (searchFsStep key var false isUuid d s =
        searchFsBody key var isUuid d { s with visited := s.visited ++ [d.name] } ∧
      searchFileStep key var false d s =
        searchFileBody key var d { s with visited := s.visited ++ [d.name] }) := by
  refine ⟨cFloppy_eq_specFloppy name, fun h => ?_, ?_, ?_⟩
  · exact ⟨searchFsStep_skip key var true isUuid d s (by simp [h]),
      searchFileStep_skip key var true d s (by simp [h])⟩
  · exact searchFsStep_go key var false isUuid d s (by simp)
  · exact searchFileStep_go key var false d s (by simp)

/-- C8. In file mode the composite path constructed and opened for device
`X` and key `K` is exactly the string `(X)K`; the buffer length computed in
the source is exactly the path length plus one (the NUL terminator), and
for key `/boot/grub/grub.cfg` on device `X` the path is
`(X)/boot/grub/grub.cfg`.  The construction is a pure function of the
name and key, hence deterministic. -/
theorem c8_path_construction (name key : String) :
    mkPath name key = "(" ++ name ++ ")" ++ key ∧
    (mkPath name key).length + 1 = pathBufLen name key ∧
    mkPath "X" "/boot/grub/grub.cfg" = "(X)/boot/grub/grub.cfg" := by
  have h1 : mkPath name key = "(" ++ name ++ ")" ++ key := by
    apply String.ext
    show '(' :: (name.data ++ (')' :: (key.data ++ []))) = _
    simp [String.data_append]
  refine ⟨h1, ?_, by decide⟩
  rw [h1]
  have e1 : ("(" : String).length = 1 := rfl
  have e2 : (")" : String).length = 1 := rfl
  simp only [String.length_append, e1, e2, pathBufLen]
  omega

/-- C9. When several mode flags are supplied the dispatched mode follows the
fixed precedence label over uuid over file: `--label` wins regardless of the
other flags, `--fs-uuid` wins when `--label` is absent, and `--file` is used
only when both are absent. -/
theorem c9_mode_precedence (st : ArgState) (a : String) (rest : List String)
    (devs : List DevInfo) :
    (st.labelSet = true →
      grub_cmd_search st (a :: rest) devs =
        ((search_fs a (argVar st) st.noFloppySet false devs initState).errno,
          search_fs a (argVar st) st.noFloppySet false devs initState)) ∧
    (st.labelSet = false → st.uuidSet = true →
      grub_cmd_search st (a :: rest) devs =
        ((search_fs a (argVar st) st.noFloppySet true devs initState).errno,
          search_fs a (argVar st) st.noFloppySet true devs initState)) ∧
    (st.labelSet = false → st.uuidSet = false → st.fileSet = true →
      grub_cmd_search st (a :: rest) devs =
        ((search_file a (argVar st) st.noFloppySet devs initState).errno,
          search_file a (argVar st) st.noFloppySet devs initState)) := by
  refine ⟨fun h1 => ?_, fun h1 h2 => ?_, fun h1 h2 h3 => ?_⟩
  · simp [grub_cmd_search, h1]
  · simp [grub_cmd_search, h1, h2]
  · simp [grub_cmd_search, h1, h2, h3]

/-- C2 (divergence record). With a positional argument given but none of the
`-f`, `-l`, `-u` flags set, `grub_cmd_search` returns
`GRUB_ERR_INVALID_COMMAND` (`"unspecified search type"`) and touches no
device: file mode is NOT assumed as a default, contrary to the option
table's own help text `"search devices by a file (default)"`. -/
theorem c2_no_mode_flag_errors (st : ArgState) (a : String) (rest : List String)
    (devs : List DevInfo) (h1 : st.labelSet = false) (h2 : st.uuidSet = false)
    (h3 : st.fileSet = false) :
    (grub_cmd_search st (a :: rest) devs).1 = GrubErr.invalidCommand ∧
    (grub_cmd_search st (a :: rest) devs).2.visited = [] := by
  simp [grub_cmd_search, h1, h2, h3, initState]

/-- C6 (amended). The call fails with `GRUB_ERR_INVALID_COMMAND` before any
device is touched when no positional argument is supplied (key absent) or
when no mode flag is set; an empty-string key, however, is not rejected. -/
theorem c6_invocation_errors (st : ArgState) (args : List String) (devs : List DevInfo) :
    (args = [] →
      grub_cmd_search st args devs =
        (GrubErr.invalidCommand, { initState with errno := GrubErr.invalidCommand })) ∧
    (st.labelSet = false → st.uuidSet = false → st.fileSet = false →
      (grub_cmd_search st args devs).1 = GrubErr.invalidCommand ∧
      (grub_cmd_search st args devs).2.visited = []) := by
  constructor
  · rintro rfl
    rfl
  · intro h1 h2 h3
    rcases args with _ | ⟨a, rest⟩
    · exact ⟨rfl, rfl⟩
    · simp [grub_cmd_search, h1, h2, h3, initState]

/-- C10. In file mode, when the path-buffer allocation fails on a device the
per-device test returns the abort signal with `GRUB_ERR_OUT_OF_MEMORY` left
pending and no match recorded; the enumeration stops there (no later device
is visited, even a matching one), and the pending allocation error is what
the call reports instead of the not-found error. -/
theorem c10_alloc_failure_aborts (key : String) (var : Option String) (noFloppy : Bool)
    (pre : List DevInfo) (dA : DevInfo) (rest : List DevInfo) (s : SState)
    (hpre : ∀ d ∈ pre, stopA noFloppy d = false ∧ effFMatch key noFloppy d = false)
    (hskip : (noFloppy && cFloppy dA.name) = false)
    (hA : dA.allocOk = false) :
    searchFileStep key var noFloppy dA s =
      ({ s with errno := GrubErr.outOfMemory, visited := s.visited ++ [dA.name] }, true) ∧
    (search_file key var noFloppy (pre ++ dA :: rest) initState).errno =
      GrubErr.outOfMemory ∧
    (search_file key var noFloppy (pre ++ dA :: rest) initState).visited =
      pre.map DevInfo.name ++ [dA.name] ∧
    (search_file key var noFloppy (pre ++ dA :: rest) initState).envWrites = [] ∧
    (search_file key var noFloppy (pre ++ dA :: rest) initState).count = 0 := by
  have hstop : stopA noFloppy dA = true := by simp [stopA, hskip, hA]
  have hfil : pre.filter (effFMatch key noFloppy) = [] := by
    rw [List.filter_eq_nil_iff]
    intro a ha
    simp [(hpre a ha).2]
  refine ⟨searchFileStep_abort key var noFloppy dA s hskip hA, ?_⟩
  rcases var with _ | v
  · have hrun := run_file_nobind_abort key noFloppy pre dA rest initState rfl
      (fun d hd => (hpre d hd).1) hstop
    refine ⟨?_, ?_, ?_, ?_⟩
    · rw [search_file_errno key Option.none noFloppy (pre ++ dA :: rest) initState, hrun]
      simp [initState]
    · rw [search_file_visited key Option.none noFloppy (pre ++ dA :: rest) initState, hrun]
      simp [initState]
    · rw [search_file_envWrites key Option.none noFloppy (pre ++ dA :: rest) initState, hrun]
      rfl
    · rw [search_file_count key Option.none noFloppy (pre ++ dA :: rest) initState, hrun]
      simp [initState, hfil]
  · have hrun := run_file_bind_abort key v noFloppy pre dA rest initState rfl
      (fun d hd => hpre d hd) hstop
    refine ⟨?_, ?_, ?_, ?_⟩
    · rw [search_file_errno key (some v) noFloppy (pre ++ dA :: rest) initState, hrun]
      simp [initState]
    · rw [search_file_visited key (some v) noFloppy (pre ++ dA :: rest) initState, hrun]
      simp [initState]
    · rw [search_file_envWrites key (some v) noFloppy (pre ++ dA :: rest) initState, hrun]
      rfl
    · rw [search_file_count key (some v) noFloppy (pre ++ dA :: rest) initState, hrun]
      rfl

/-- C6 counterexample: with a present but empty key (`argc = 1`,
`args[0] = ""`) in label mode, the call is not an invocation error and a
device is probed - the empty key is accepted, refuting the claim that an
empty key fails with an invocation error before any device is touched. -/
theorem c6_counterexample :
    (grub_cmd_search stLabelOnly [""] [devEmptyLabel]).1 ≠ GrubErr.invalidCommand ∧
    (grub_cmd_search stLabelOnly [""] [devEmptyLabel]).2.visited = ["hd0"] := by
  constructor
  · decide
  · decide

/-- C2 witness: the concrete invocation `search /boot/grub/grub.cfg` with no
mode flag errors out even though a device carrying that file is present. -/
theorem c2_witness :
    stNoFlags.labelSet = false ∧ stNoFlags.uuidSet = false ∧ stNoFlags.fileSet = false ∧
    (grub_cmd_search stNoFlags ["/boot/grub/grub.cfg"] [devGrubCfg]).1 =
      GrubErr.invalidCommand ∧
    (grub_cmd_search stNoFlags ["/boot/grub/grub.cfg"] [devGrubCfg]).2.visited = [] :=
  ⟨rfl, rfl, rfl,
    (c2_no_mode_flag_errors stNoFlags "/boot/grub/grub.cfg" [] [devGrubCfg] rfl rfl rfl).1,
    (c2_no_mode_flag_errors stNoFlags "/boot/grub/grub.cfg" [] [devGrubCfg] rfl rfl rfl).2⟩

/-- C4 witness: devices `[hd0, hd1, fd0]`, label mode, key `"MYUSB"` where
only `hd1` matches, yields the output `" hd1"`. -/
theorem c4_witness :
    (∀ d ∈ [devOther "hd0", devMyUsb, devOther "fd0"], d.allocOk = true) ∧
    (runSearch SMode.label "MYUSB" Option.none false
      [devOther "hd0", devMyUsb, devOther "fd0"]).output = [" hd1"] := by
  have hall : ∀ d ∈ [devOther "hd0", devMyUsb, devOther "fd0"], d.allocOk = true := by
    decide
  exact ⟨hall,
    ((c4_nonbinding_output "MYUSB" false [devOther "hd0", devMyUsb, devOther "fd0"]
      hall).1).trans (by decide)⟩

/-- C10 witness: devices `[hd0, hd1]` where allocation fails on `hd0` and
`hd1` has the file: the call stops after `hd0` with
`GRUB_ERR_OUT_OF_MEMORY` and never visits the matching `hd1`. -/
theorem c10_witness :
    (false && cFloppy devAllocFail.name) = false ∧
    devAllocFail.allocOk = false ∧
    (search_file "/boot/grub/grub.cfg" Option.none false [devAllocFail, devHasFile]
      initState).errno = GrubErr.outOfMemory ∧
    (search_file "/boot/grub/grub.cfg" Option.none false [devAllocFail, devHasFile]
      initState).visited = ["hd0"] ∧
    effFMatch "/boot/grub/grub.cfg" false devHasFile = true :=
  ⟨rfl, rfl,
    (c10_alloc_failure_aborts "/boot/grub/grub.cfg" Option.none false [] devAllocFail
      [devHasFile] initState (by simp) rfl rfl).2.1,
    (c10_alloc_failure_aborts "/boot/grub/grub.cfg" Option.none false [] devAllocFail
      [devHasFile] initState (by simp) rfl rfl).2.2.1,
    by decide⟩
